import Mathlib

/-!
Verification of the astronomical/geometric core of the `l1-earth-visualizer`
repository (`src/lib/EarthVisualizer.svelte`, with near-identical duplicates in
the unnamed variants).  The JavaScript number computations are modelled over `ℝ`;
JavaScript's remainder operator `%` (which truncates toward zero, so its result
carries the sign of the dividend) is modelled by `jsMod`; timestamps are Unix
epoch milliseconds as `ℤ`, and `Date.prototype.getUTCHours` is the Euclidean
hour-of-day extraction.
-/

namespace EarthVisualizer

open Real

/-- JavaScript truncation toward zero, as used by the `%` operator on numbers. -/
noncomputable def jsTrunc (x : ℝ) : ℤ := if 0 ≤ x then ⌊x⌋ else ⌈x⌉

/-- JavaScript remainder `a % b` for finite numbers: `a - b * trunc (a / b)`. -/
noncomputable def jsMod (a b : ℝ) : ℝ := a - b * (jsTrunc (a / b) : ℝ)

/-- `Date.prototype.getUTCHours()` for a timestamp of `ms` Unix milliseconds:
the hour of day in UTC, always in `[0, 23]`, also for negative timestamps. -/
def getUTCHours (ms : ℤ) : ℤ := (ms.emod 86400000).ediv 3600000

/-- `const JD = (dateObj.getTime() / 86400000) + 2440587.5` -/
noncomputable def JD (ms : ℤ) : ℝ := (ms : ℝ) / 86400000 + 2440587.5

/-- `const T = (JD - 2451545.0) / 36525` -/
noncomputable def T (ms : ℤ) : ℝ := (JD ms - 2451545.0) / 36525

/-- `const L0 = (280.46646 + 36000.76983 * T) % 360` -/
noncomputable def L0 (ms : ℤ) : ℝ := jsMod (280.46646 + 36000.76983 * T ms) 360

/-- `const M = (357.52911 + 35999.05029 * T) % 360` -/
noncomputable def M (ms : ℤ) : ℝ := jsMod (357.52911 + 35999.05029 * T ms) 360

/-- `const C = 1.9148 * Math.sin(M * Math.PI/180) + 0.0200 * Math.sin(2 * M * Math.PI/180)` -/
noncomputable def C (ms : ℤ) : ℝ :=
  1.9148 * sin (M ms * π / 180) + 0.0200 * sin (2 * M ms * π / 180)

/-- `const λ = (L0 + C) % 360` (the true ecliptic longitude; `λ` is reserved in
Lean, so the source's name is transliterated to `lam`). -/
noncomputable def lam (ms : ℤ) : ℝ := jsMod (L0 ms + C ms) 360

/-- `const ε = 23.43929111 - (46.8150 * T + 0.00059 * T**2) / 3600` -/
noncomputable def ε (ms : ℤ) : ℝ :=
  23.43929111 - (46.8150 * T ms + 0.00059 * T ms ^ 2) / 3600

/-- `const subsolarLon = (λ - 180 + (dateObj.getUTCHours() * 15)) % 360` -/
noncomputable def subsolarLon (ms : ℤ) : ℝ :=
  jsMod (lam ms - 180 + ((getUTCHours ms * 15 : ℤ) : ℝ)) 360

/-- `const subsolarLat = Math.asin(Math.sin(ε * Math.PI/180) * Math.sin(λ * Math.PI/180)) * 180/Math.PI` -/
noncomputable def subsolarLat (ms : ℤ) : ℝ :=
  arcsin (sin (ε ms * π / 180) * sin (lam ms * π / 180)) * 180 / π

/-- local `cosDistance` of `isPointVisible`: the projection rotation `(lambda, phi)`
is read from the ambient `projection.rotate()` state in the source and is passed
explicitly here.  `lonRad`, `latRad`, `lambdaRad`, `phiRad` are inlined. -/
noncomputable def cosDistance (lambda phi lon lat : ℝ) : ℝ :=
  sin (lat * π / 180) * sin (-phi * π / 180) +
    cos (lat * π / 180) * cos (-phi * π / 180) *
      cos (lon * π / 180 - -lambda * π / 180)

/-- `isPointVisible(coords, lon, lat)`: the `coords` parameter is unused by the
source body; the rotation state is the extra first argument pair. -/
noncomputable def isPointVisible (lambda phi : ℝ) (coords : ℝ × ℝ) (lon lat : ℝ) : Prop :=
  cosDistance lambda phi lon lat > 0

/-- Transcription of the specification's words (§4.2): the cosine of the
great-circle angular distance between a center point and a candidate point by
the spherical law of cosines.  The projection's current center derived from
rotation `(λ, φ)` is `(-λ, -φ)`. -/
noncomputable def greatCircleCosSpec (centerLon centerLat lon lat : ℝ) : ℝ :=
  sin (lat * π / 180) * sin (centerLat * π / 180) +
    cos (lat * π / 180) * cos (centerLat * π / 180) *
      cos (lon * π / 180 - centerLon * π / 180)

/-- local `stationX` of `isInCone` (station zenith unit vector, x). -/
noncomputable def stationX (stationLat stationLon : ℝ) : ℝ :=
  cos (stationLat * (π / 180)) * cos (stationLon * (π / 180))

/-- local `stationY` of `isInCone`. -/
noncomputable def stationY (stationLat stationLon : ℝ) : ℝ :=
  cos (stationLat * (π / 180)) * sin (stationLon * (π / 180))

/-- local `stationZ` of `isInCone`. -/
noncomputable def stationZ (stationLat : ℝ) : ℝ := sin (stationLat * (π / 180))

/-- local `satDist` of `isInCone`: magnitude of the satellite position vector. -/
noncomputable def satDist (satX satY satZ : ℝ) : ℝ :=
  Real.sqrt (satX * satX + satY * satY + satZ * satZ)

/-- local `dotProduct` of `isInCone`: dot product of the station zenith unit
vector with the normalized satellite vector (`satXNorm = satX / satDist` etc.
inlined). -/
noncomputable def dotProduct (stationLat stationLon satX satY satZ : ℝ) : ℝ :=
  stationX stationLat stationLon * (satX / satDist satX satY satZ) +
    stationY stationLat stationLon * (satY / satDist satX satY satZ) +
      stationZ stationLat * (satZ / satDist satX satY satZ)

/-- local `zenithAngle` of `isInCone`: `Math.acos(dotProduct) * 180 / Math.PI`. -/
noncomputable def zenithAngle (stationLat stationLon satX satY satZ : ℝ) : ℝ :=
  arccos (dotProduct stationLat stationLon satX satY satZ) * 180 / π

/-- local `effectiveAngle` of `isInCone`:
`stationLat < 0 ? 180 - zenithAngle : zenithAngle`. -/
noncomputable def effectiveAngle (stationLat stationLon satX satY satZ : ℝ) : ℝ :=
  if stationLat < 0 then 180 - zenithAngle stationLat stationLon satX satY satZ
  else zenithAngle stationLat stationLon satX satY satZ

/-- `isInCone(stationLat, stationLon, satX, satY, satZ, coneAngle)`:
`return effectiveAngle <= coneAngle / 2`. -/
noncomputable def isInCone (stationLat stationLon satX satY satZ coneAngle : ℝ) : Prop :=
  effectiveAngle stationLat stationLon satX satY satZ ≤ coneAngle / 2

/-- A ground-station record; the two visibility flags are the per-cycle mutable
derived fields. -/
structure Station where
  name : String
  lat : ℝ
  lon : ℝ
  cone : ℝ
  color : String
  canSeeDscovr : Prop
  canSeeAce : Prop

/-- The static `xBandStations` list (flags initialized to `false`). -/
noncomputable def xBandStations : List Station :=
  [⟨"Thermopylae, GR", 38.7965, 22.5364, 170, "#FF0000", False, False⟩,
   ⟨"Nemea, GR", 37.8103, 22.7100, 170, "#00FF00", False, False⟩,
   ⟨"Canberra, AUS", -35.3082, 149.1244, 170, "#0000FF", False, False⟩,
   ⟨"Awarua, NZ", -46.5, 168.3, 170, "#FFA500", False, False⟩,
   ⟨"West Virginia, USA", 39.5381, -80.0000, 170, "#FF00FF", False, False⟩,
   ⟨"Virginia, USA", 37.4316, -76.5000, 170, "#00FFFF", False, False⟩]

/-- `xCoords[lastIndex]` for a parsed coordinate list (the source indexes at
`length - 1`; an empty satellite response would read `undefined`/NaN there, the
model returns `0` for that out-of-range read). -/
def lastCoord (l : List ℝ) : ℝ := l.getLastD 0

/-- The satellite coordinate triple `updateStationVisibility` extracts from the
parsed `X`/`Y`/`Z` element lists and hands to every `isInCone` call. -/
def satVectorUsed (xs ys zs : List ℝ) : ℝ × ℝ × ℝ :=
  (lastCoord xs, lastCoord ys, lastCoord zs)

/-- Body of the `xBandStations.forEach` callback in `updateStationVisibility`:
`visible = coords && isPointVisible(coords, lon, lat)` where
`coords = projection([lon, lat])` may be null (`none`), then
`canSeeDscovr = (visible ?? false) && isInCone(lat, lon, x, y, z, cone)` and
`canSeeAce` by the identical expression.  The d3 projection and its rotation
state are passed explicitly. -/
noncomputable def updateStation (rot : ℝ × ℝ) (proj : ℝ → ℝ → Option (ℝ × ℝ))
    (xs ys zs : List ℝ) (s : Station) : Station :=
  let sat := satVectorUsed xs ys zs
  let visible : Prop :=
    ∃ c, proj s.lon s.lat = some c ∧ isPointVisible rot.1 rot.2 c s.lon s.lat
  { s with
    canSeeDscovr := visible ∧ isInCone s.lat s.lon sat.1 sat.2.1 sat.2.2 s.cone
    canSeeAce := visible ∧ isInCone s.lat s.lon sat.1 sat.2.1 sat.2.2 s.cone }

/-- `updateStationVisibility` (the station-flag recomputation pass over the
station list; the final whole-array reassignment is the returned list). -/
noncomputable def updateStationVisibility (rot : ℝ × ℝ)
    (proj : ℝ → ℝ → Option (ℝ × ℝ)) (xs ys zs : List ℝ)
    (stations : List Station) : List Station :=
  stations.map (updateStation rot proj xs ys zs)

/-! ### Helper lemmas about `jsMod` -/

theorem jsMod_eq_of_nonneg {a b : ℝ} (k : ℤ) (hb : 0 < b) (hk : 0 ≤ k)
    (h1 : b * k ≤ a) (h2 : a < b * (k + 1)) : jsMod a b = a - b * k := by
  have hbk : (0 : ℝ) ≤ b * k := by
    have : (0 : ℝ) ≤ (k : ℝ) := by exact_mod_cast hk
    positivity
  have hx0 : 0 ≤ a / b := div_nonneg (le_trans hbk h1) hb.le
  have hfloor : ⌊a / b⌋ = k := by
    rw [Int.floor_eq_iff]
    constructor
    · rw [le_div_iff hb]; linarith
    · rw [div_lt_iff hb]; push_cast; linarith
  unfold jsMod jsTrunc
  rw [if_pos hx0, hfloor]

theorem jsMod_eq_of_nonpos {a b : ℝ} (k : ℤ) (hb : 0 < b) (hk : k ≤ 0)
    (h1 : b * (k - 1) < a) (h2 : a ≤ b * k) : jsMod a b = a - b * k := by
  have hbk : b * (k : ℝ) ≤ 0 := by
    have : (k : ℝ) ≤ 0 := by exact_mod_cast hk
    nlinarith
  rcases lt_or_eq_of_le (le_trans h2 hbk) with ha | ha
  · have hx0 : ¬ 0 ≤ a / b := by
      rw [not_le]
      exact div_neg_of_neg_of_pos ha hb
    have hceil : ⌈a / b⌉ = k := by
      rw [Int.ceil_eq_iff]
      constructor
      · rw [lt_div_iff hb]; push_cast; linarith
      · rw [div_le_iff hb]; linarith
    unfold jsMod jsTrunc
    rw [if_neg hx0, hceil]
  · have hk0 : k = 0 := by
      by_contra hne
      have hklt : k ≤ -1 := by omega
      have : b * (k : ℝ) ≤ b * (-1 : ℝ) := by
        have : (k : ℝ) ≤ -1 := by exact_mod_cast hklt
        nlinarith
      nlinarith
    subst hk0
    have ha0 : a = 0 := by linarith [h2, hbk, ha]
    subst ha0
    unfold jsMod jsTrunc
    norm_num

theorem jsMod_bounds (a : ℝ) {b : ℝ} (hb : 0 < b) :
    -b < jsMod a b ∧ jsMod a b < b := by
  have hab : a = b * (a / b) := by field_simp
  unfold jsMod jsTrunc
  rcases le_or_lt 0 (a / b) with h | h
  · rw [if_pos h]
    have h1 : (⌊a / b⌋ : ℝ) ≤ a / b := Int.floor_le _
    have h2 : a / b < (⌊a / b⌋ : ℝ) + 1 := Int.lt_floor_add_one _
    constructor <;> nlinarith
  · rw [if_neg (not_le.mpr h)]
    have h1 : a / b ≤ (⌈a / b⌉ : ℝ) := Int.le_ceil _
    have h2 : (⌈a / b⌉ : ℝ) < a / b + 1 := Int.ceil_lt_add_one _
    constructor <;> nlinarith

/-! ### Polynomial enclosures for `sin` and `cos` on `[-1, 1]` -/

theorem sin_ge_poly {x l h : ℝ} (h1 : l ≤ x) (h2 : x ≤ h) (h0 : 0 ≤ l)
    (hh : h ≤ 1) : l - h ^ 3 / 6 - h ^ 4 * (5 / 96) ≤ sin x := by
  have hax : |x| ≤ 1 := abs_le.mpr ⟨by linarith, by linarith⟩
  have hb := abs_le.mp (Real.sin_bound hax)
  rw [abs_of_nonneg (by linarith : (0 : ℝ) ≤ x)] at hb
  have h3 : x ^ 3 ≤ h ^ 3 := pow_le_pow_left (by linarith) h2 3
  have h4 : x ^ 4 ≤ h ^ 4 := pow_le_pow_left (by linarith) h2 4
  nlinarith [hb.1, hb.2]

theorem sin_le_poly {x l h : ℝ} (h1 : l ≤ x) (h2 : x ≤ h) (h0 : 0 ≤ l)
    (hh : h ≤ 1) : sin x ≤ h - l ^ 3 / 6 + h ^ 4 * (5 / 96) := by
  have hax : |x| ≤ 1 := abs_le.mpr ⟨by linarith, by linarith⟩
  have hb := abs_le.mp (Real.sin_bound hax)
  rw [abs_of_nonneg (by linarith : (0 : ℝ) ≤ x)] at hb
  have h3 : l ^ 3 ≤ x ^ 3 := pow_le_pow_left h0 h1 3
  have h4 : x ^ 4 ≤ h ^ 4 := pow_le_pow_left (by linarith) h2 4
  nlinarith [hb.1, hb.2]

theorem cos_ge_poly {x h : ℝ} (hx : |x| ≤ h) (hh : h ≤ 1) :
    1 - h ^ 2 / 2 - h ^ 4 * (5 / 96) ≤ cos x := by
  have hax : |x| ≤ 1 := le_trans hx hh
  have hb := abs_le.mp (Real.cos_bound hax)
  have h2 : x ^ 2 ≤ h ^ 2 := by
    have := pow_le_pow_left (abs_nonneg x) hx 2
    calc x ^ 2 = |x| ^ 2 := (sq_abs x).symm
    _ ≤ h ^ 2 := this
  have h4 : |x| ^ 4 ≤ h ^ 4 := pow_le_pow_left (abs_nonneg x) hx 4
  nlinarith [hb.1, hb.2]

theorem cos_le_poly {x l h : ℝ} (h1 : l ≤ x) (h2 : x ≤ h) (h0 : 0 ≤ l)
    (hh : h ≤ 1) : cos x ≤ 1 - l ^ 2 / 2 + h ^ 4 * (5 / 96) := by
  have hax : |x| ≤ 1 := abs_le.mpr ⟨by linarith, by linarith⟩
  have hb := abs_le.mp (Real.cos_bound hax)
  have hl2 : l ^ 2 ≤ x ^ 2 := pow_le_pow_left h0 h1 2
  have h4 : |x| ^ 4 ≤ h ^ 4 := by
    rw [abs_of_nonneg (by linarith : (0 : ℝ) ≤ x)]
    exact pow_le_pow_left (by linarith) h2 4
  nlinarith [hb.1, hb.2]

/-! ### Visibility test -/

theorem cosDistance_eq_greatCircleCosSpec (lambda phi lon lat : ℝ) :
    greatCircleCosSpec (-lambda) (-phi) lon lat = cosDistance lambda phi lon lat := rfl

/-- C3: for every rotation `(lambda, phi)` and every point `(lon, lat)`,
`isPointVisible` returns true iff the cosine of the great-circle angular
distance between the projection's center `(-lambda, -phi)` and the point
(spherical law of cosines) is strictly positive; a point at exactly 90°
angular distance (cosine `= 0`) is classified not-visible. -/
theorem isPointVisible_iff_cos_pos (lambda phi : ℝ) (coords : ℝ × ℝ) (lon lat : ℝ) :
    (isPointVisible lambda phi coords lon lat ↔
      0 < greatCircleCosSpec (-lambda) (-phi) lon lat) ∧
    (greatCircleCosSpec (-lambda) (-phi) lon lat = 0 →
      ¬ isPointVisible lambda phi coords lon lat) := by
  constructor
  · exact Iff.rfl
  · intro h hv
    have : 0 < greatCircleCosSpec (-lambda) (-phi) lon lat := hv
    linarith

theorem isPointVisible_iff_cos_pos_w :
    greatCircleCosSpec (-0) (-0) 90 0 = 0 ∧ ¬ isPointVisible 0 0 (0, 0) 90 0 := by
  have h : greatCircleCosSpec (-0) (-0) 90 0 = 0 := by
    unfold greatCircleCosSpec
    rw [show (90 : ℝ) * π / 180 - -0 * π / 180 = π / 2 by ring, Real.cos_pi_div_two]
    simp
  exact ⟨h, (isPointVisible_iff_cos_pos 0 0 (0, 0) 90 0).2 h⟩

/-- C6: rotating the projection to a point's own coordinates (the source sets
`projection.rotate([-subsolarLon, -subsolarLat, 0])`, so the rotation state for
point `(lon, lat)` is `(-lon, -lat)`) makes that point visible and its antipode
`(lon + 180, -lat)` not visible. -/
theorem isPointVisible_center_antipode (coords coords' : ℝ × ℝ) (lon lat : ℝ) :
    isPointVisible (-lon) (-lat) coords lon lat ∧
    ¬ isPointVisible (-lon) (-lat) coords' (lon + 180) (-lat) := by
  constructor
  · show cosDistance (-lon) (-lat) lon lat > 0
    have h : cosDistance (-lon) (-lat) lon lat = 1 := by
      unfold cosDistance
      rw [show - -lat * π / 180 = lat * π / 180 by ring,
        show lon * π / 180 - - -lon * π / 180 = 0 by ring, Real.cos_zero]
      have := Real.sin_sq_add_cos_sq (lat * π / 180)
      nlinarith
    linarith
  · show ¬ cosDistance (-lon) (-lat) (lon + 180) (-lat) > 0
    have h : cosDistance (-lon) (-lat) (lon + 180) (-lat) = -1 := by
      unfold cosDistance
      rw [show - -lat * π / 180 = lat * π / 180 by ring,
        show (lon + 180) * π / 180 - - -lon * π / 180 = π by ring, Real.cos_pi,
        show -lat * π / 180 = -(lat * π / 180) by ring, Real.sin_neg, Real.cos_neg]
      have := Real.sin_sq_add_cos_sq (lat * π / 180)
      nlinarith
    linarith

theorem isPointVisible_center_antipode_w :
    isPointVisible (-(10 : ℝ)) (-(20 : ℝ)) (0, 0) 10 20 ∧
    ¬ isPointVisible (-(10 : ℝ)) (-(20 : ℝ)) (0, 0) (10 + 180) (-20) :=
  isPointVisible_center_antipode (0, 0) (0, 0) 10 20

/-! ### Cone line-of-sight test -/

/-- C4: `isInCone` computes `zenithAngle = acos(dot(stationZenith, satNormalized))`
in degrees, substitutes `180 - zenithAngle` exactly when the station latitude is
negative, and returns true iff `effectiveAngle ≤ coneAngle / 2`. -/
theorem isInCone_iff_effectiveAngle (stationLat stationLon satX satY satZ coneAngle : ℝ) :
    (isInCone stationLat stationLon satX satY satZ coneAngle ↔
      effectiveAngle stationLat stationLon satX satY satZ ≤ coneAngle / 2) ∧
    effectiveAngle stationLat stationLon satX satY satZ =
      (if stationLat < 0 then 180 - zenithAngle stationLat stationLon satX satY satZ
       else zenithAngle stationLat stationLon satX satY satZ) ∧
    zenithAngle stationLat stationLon satX satY satZ =
      arccos (dotProduct stationLat stationLon satX satY satZ) * 180 / π :=
  ⟨Iff.rfl, rfl, rfl⟩

/-- C5: `isInCone` is monotonic in the cone angle. -/
theorem isInCone_mono {stationLat stationLon satX satY satZ a b : ℝ}
    (hsat : (satX, satY, satZ) ≠ (0, 0, 0)) (hab : a ≤ b)
    (h : isInCone stationLat stationLon satX satY satZ a) :
    isInCone stationLat stationLon satX satY satZ b := by
  unfold isInCone at h ⊢
  linarith

theorem effectiveAngle_equator_overhead : effectiveAngle 0 0 1 0 0 = 0 := by
  have hdist : satDist 1 0 0 = 1 := by
    unfold satDist
    norm_num
  have hdot : dotProduct 0 0 1 0 0 = 1 := by
    unfold dotProduct stationX stationY stationZ
    rw [hdist]
    norm_num
  unfold effectiveAngle zenithAngle
  rw [hdot, if_neg (by norm_num), Real.arccos_one]
  norm_num

theorem effectiveAngle_equator_opposite : effectiveAngle 0 0 (-1) 0 0 = 180 := by
  have hdist : satDist (-1) 0 0 = 1 := by
    unfold satDist
    norm_num
  have hdot : dotProduct 0 0 (-1) 0 0 = -1 := by
    unfold dotProduct stationX stationY stationZ
    rw [hdist]
    norm_num
  unfold effectiveAngle zenithAngle
  rw [hdot, if_neg (by norm_num), Real.arccos_neg_one]
  field_simp

theorem isInCone_mono_w :
    ((1 : ℝ), (0 : ℝ), (0 : ℝ)) ≠ ((0 : ℝ), (0 : ℝ), (0 : ℝ)) ∧ (170 : ℝ) ≤ 180 ∧
    isInCone 0 0 1 0 0 170 ∧ isInCone 0 0 1 0 0 180 := by
  have h170 : isInCone 0 0 1 0 0 170 := by
    unfold isInCone
    rw [effectiveAngle_equator_overhead]
    norm_num
  exact ⟨by norm_num, by norm_num, h170,
    isInCone_mono (by norm_num) (by norm_num) h170⟩

/-- C7: a station at `(0°, 0°)` with a 170° full cone sees a satellite at
`(1, 0, 0)` (directly overhead), and for every cone angle `< 360°` it does not
see a satellite at `(-1, 0, 0)` (directly opposite). -/
theorem isInCone_overhead_opposite (c : ℝ) (hc : c < 360) :
    isInCone 0 0 1 0 0 170 ∧ ¬ isInCone 0 0 (-1) 0 0 c := by
  constructor
  · unfold isInCone
    rw [effectiveAngle_equator_overhead]
    norm_num
  · unfold isInCone
    rw [effectiveAngle_equator_opposite]
    intro h
    linarith

theorem isInCone_overhead_opposite_w :
    (350 : ℝ) < 360 ∧ (isInCone 0 0 1 0 0 170 ∧ ¬ isInCone 0 0 (-1) 0 0 350) :=
  ⟨by norm_num, isInCone_overhead_opposite 350 (by norm_num)⟩

/-- C9: the caller `updateStationVisibility` does not guard `isInCone` against
a degenerate satellite vector: the parsed lists `[0], [0], [0]` (which the
source produces from a response whose `X`/`Y`/`Z` elements have empty text,
via `parseFloat(x.textContent || 0) = 0`) make it hand the triple `(0, 0, 0)`
to `isInCone`, whose normalizing magnitude `satDist` is then `0`, so the
normalization divides by zero. -/
theorem updateStationVisibility_no_degenerate_guard :
    satVectorUsed [0] [0] [0] = ((0 : ℝ), (0 : ℝ), (0 : ℝ)) ∧
    satDist 0 0 0 = 0 ∧
    (updateStationVisibility (0, 0) (fun _ _ => none) [0] [0] [0] xBandStations).length =
      xBandStations.length := by
  refine ⟨rfl, ?_, ?_⟩
  · unfold satDist
    norm_num
  · unfold updateStationVisibility
    rw [List.length_map]

/-- C10: after `updateStationVisibility`, every station's `canSeeDscovr` flag
is equivalent to its `canSeeAce` flag: both are computed by the identical
expression from the identical last satellite coordinate triple. -/
theorem canSeeDscovr_iff_canSeeAce (rot : ℝ × ℝ) (proj : ℝ → ℝ → Option (ℝ × ℝ))
    (xs ys zs : List ℝ) :
    (updateStationVisibility rot proj xs ys zs xBandStations).Forall
      (fun s => s.canSeeDscovr ↔ s.canSeeAce) := by
  unfold updateStationVisibility xBandStations updateStation
  simp [List.Forall]

theorem canSeeDscovr_iff_canSeeAce_w :
    (updateStationVisibility (0, 0) (fun _ _ => none) [] [] [] xBandStations).Forall
      (fun s => s.canSeeDscovr ↔ s.canSeeAce) :=
  canSeeDscovr_iff_canSeeAce (0, 0) (fun _ _ => none) [] [] []

/-! ### Numeric evaluation of the solar position estimator at
2024-03-20T12:00:00Z, Unix milliseconds 1710936000000 (claim C8) -/

theorem c8_T : T 1710936000000 = 1769 / 7305 := by
  unfold T JD
  norm_num

theorem c8_hours : getUTCHours 1710936000000 = 12 := by decide

theorem c8_L0 : L0 1710936000000 = 87298977319 / 243500000 := by
  unfold L0
  rw [c8_T, show (280.46646 : ℝ) + 36000.76983 * (1769 / 7305) =
    2191138977319 / 243500000 by norm_num,
    jsMod_eq_of_nonneg 24 (by norm_num) (by norm_num) (by push_cast; norm_num)
      (by push_cast; norm_num)]
  push_cast
  norm_num

theorem c8_M : M 1710936000000 = 4575584263 / 60875000 := by
  unfold M
  rw [c8_T, show (357.52911 : ℝ) + 35999.05029 * (1769 / 7305) =
    552450584263 / 60875000 by norm_num,
    jsMod_eq_of_nonneg 25 (by norm_num) (by norm_num) (by push_cast; norm_num)
      (by push_cast; norm_num)]
  push_cast
  norm_num

theorem c8_sinM :
    (0.96623983 : ℝ) ≤ sin ((4575584263 / 60875000 : ℝ) * π / 180) ∧
      sin ((4575584263 / 60875000 : ℝ) * π / 180) ≤ 0.966708183 := by
  have e : sin ((4575584263 / 60875000 : ℝ) * π / 180) =
      cos ((903165737 / 10957500000 : ℝ) * π) := by
    rw [show ((903165737 / 10957500000 : ℝ) * π) =
      π / 2 - (4575584263 / 60875000 : ℝ) * π / 180 by ring, Real.cos_pi_div_two_sub]
  rw [e]
  have hzl : (0.258943942 : ℝ) ≤ (903165737 / 10957500000 : ℝ) * π := by
    nlinarith [Real.pi_gt_d6]
  have hzh : (903165737 / 10957500000 : ℝ) * π ≤ 0.258944026 := by
    nlinarith [Real.pi_lt_d6]
  constructor
  · calc (0.96623983 : ℝ) ≤
        1 - (0.258944026 : ℝ) ^ 2 / 2 - (0.258944026 : ℝ) ^ 4 * (5 / 96) := by norm_num
    _ ≤ cos ((903165737 / 10957500000 : ℝ) * π) :=
        cos_ge_poly (abs_le.mpr ⟨by linarith, hzh⟩) (by norm_num)
  · calc cos ((903165737 / 10957500000 : ℝ) * π) ≤
        1 - (0.258943942 : ℝ) ^ 2 / 2 + (0.258944026 : ℝ) ^ 4 * (5 / 96) :=
        cos_le_poly hzl hzh (by norm_num) (by norm_num)
    _ ≤ 0.966708183 := by norm_num

theorem c8_sin2M :
    (0.490990952 : ℝ) ≤ sin (2 * (4575584263 / 60875000 : ℝ) * π / 180) ∧
      sin (2 * (4575584263 / 60875000 : ℝ) * π / 180) ≤ 0.498484428 := by
  have e : sin (2 * (4575584263 / 60875000 : ℝ) * π / 180) =
      sin ((903165737 / 5478750000 : ℝ) * π) := by
    rw [show ((903165737 / 5478750000 : ℝ) * π) =
      π - 2 * (4575584263 / 60875000 : ℝ) * π / 180 by ring, Real.sin_pi_sub]
  rw [e]
  have hzl : (0.517887885 : ℝ) ≤ (903165737 / 5478750000 : ℝ) * π := by
    nlinarith [Real.pi_gt_d6]
  have hzh : (903165737 / 5478750000 : ℝ) * π ≤ 0.517888051 := by
    nlinarith [Real.pi_lt_d6]
  constructor
  · calc (0.490990952 : ℝ) ≤
        (0.517887885 : ℝ) - (0.517888051 : ℝ) ^ 3 / 6 -
          (0.517888051 : ℝ) ^ 4 * (5 / 96) := by norm_num
    _ ≤ sin ((903165737 / 5478750000 : ℝ) * π) :=
        sin_ge_poly hzl hzh (by norm_num) (by norm_num)
  · calc sin ((903165737 / 5478750000 : ℝ) * π) ≤
        (0.517888051 : ℝ) - (0.517887885 : ℝ) ^ 3 / 6 +
          (0.517888051 : ℝ) ^ 4 * (5 / 96) :=
        sin_le_poly hzl hzh (by norm_num) (by norm_num)
    _ ≤ 0.498484428 := by norm_num

theorem c8_C : (1.859975845 : ℝ) ≤ C 1710936000000 ∧
    C 1710936000000 ≤ 1.861022518 := by
  unfold C
  rw [c8_M]
  obtain ⟨h1, h2⟩ := c8_sinM
  obtain ⟨h3, h4⟩ := c8_sin2M
  constructor <;> nlinarith

theorem c8_lam : (0.377336497 : ℝ) ≤ lam 1710936000000 ∧
    lam 1710936000000 ≤ 0.378383171 := by
  obtain ⟨h1, h2⟩ := c8_C
  unfold lam
  rw [c8_L0,
    jsMod_eq_of_nonneg 1 (by norm_num) (by norm_num) (by push_cast; linarith)
      (by push_cast; linarith)]
  push_cast
  constructor <;> linarith

theorem c8_lon : subsolarLon 1710936000000 = lam 1710936000000 := by
  obtain ⟨h1, h2⟩ := c8_lam
  unfold subsolarLon
  rw [c8_hours, show (((12 * 15 : ℤ)) : ℝ) = 180 by norm_num,
    jsMod_eq_of_nonneg 0 (by norm_num) (by norm_num) (by push_cast; linarith)
      (by push_cast; linarith)]
  push_cast
  ring

theorem c8_eps : ε 1710936000000 = 450224434815624991 / 19210689000000000 := by
  unfold ε
  rw [c8_T]
  norm_num

theorem c8_sineps :
    (0.396173614 : ℝ) ≤ sin ((450224434815624991 / 19210689000000000 : ℝ) * π / 180) ∧
      sin ((450224434815624991 / 19210689000000000 : ℝ) * π / 180) ≤ 0.399089726 := by
  have hzl : (0.409037756 : ℝ) ≤
      (450224434815624991 / 19210689000000000 : ℝ) * π / 180 := by
    nlinarith [Real.pi_gt_d6]
  have hzh : (450224434815624991 / 19210689000000000 : ℝ) * π / 180 ≤ 0.409037887 := by
    nlinarith [Real.pi_lt_d6]
  constructor
  · calc (0.396173614 : ℝ) ≤
        (0.409037756 : ℝ) - (0.409037887 : ℝ) ^ 3 / 6 -
          (0.409037887 : ℝ) ^ 4 * (5 / 96) := by norm_num
    _ ≤ sin ((450224434815624991 / 19210689000000000 : ℝ) * π / 180) :=
        sin_ge_poly hzl hzh (by norm_num) (by norm_num)
  · calc sin ((450224434815624991 / 19210689000000000 : ℝ) * π / 180) ≤
        (0.409037887 : ℝ) - (0.409037756 : ℝ) ^ 3 / 6 +
          (0.409037887 : ℝ) ^ 4 * (5 / 96) :=
        sin_le_poly hzl hzh (by norm_num) (by norm_num)
    _ ≤ 0.399089726 := by norm_num

theorem c8_sinlam :
    (0.006585713 : ℝ) ≤ sin (lam 1710936000000 * π / 180) ∧
      sin (lam 1710936000000 * π / 180) ≤ 0.006603986 := by
  obtain ⟨h1, h2⟩ := c8_lam
  have hzl : (0.006585762 : ℝ) ≤ lam 1710936000000 * π / 180 := by
    nlinarith [Real.pi_gt_d6, Real.pi_lt_d6]
  have hzh : lam 1710936000000 * π / 180 ≤ 0.006604033 := by
    nlinarith [Real.pi_gt_d6, Real.pi_lt_d6]
  constructor
  · calc (0.006585713 : ℝ) ≤
        (0.006585762 : ℝ) - (0.006604033 : ℝ) ^ 3 / 6 -
          (0.006604033 : ℝ) ^ 4 * (5 / 96) := by norm_num
    _ ≤ sin (lam 1710936000000 * π / 180) :=
        sin_ge_poly hzl hzh (by norm_num) (by norm_num)
  · calc sin (lam 1710936000000 * π / 180) ≤
        (0.006604033 : ℝ) - (0.006585762 : ℝ) ^ 3 / 6 +
          (0.006604033 : ℝ) ^ 4 * (5 / 96) :=
        sin_le_poly hzl hzh (by norm_num) (by norm_num)
    _ ≤ 0.006603986 := by norm_num

/-- C8: at timestamp 2024-03-20T12:00:00Z (Unix milliseconds 1710936000000,
near the 2024 March equinox at solar noon of the Greenwich meridian) the
estimator yields a subsolar latitude within 1° of 0° and a subsolar longitude
within 2° of 0°. -/
theorem subsolar_equinox_2024 :
    |subsolarLat 1710936000000| < 1 ∧ |subsolarLon 1710936000000| < 2 := by
  obtain ⟨hse1, hse2⟩ := c8_sineps
  obtain ⟨hsl1, hsl2⟩ := c8_sinlam
  constructor
  · unfold subsolarLat
    rw [c8_eps]
    have hp1 : (0.002609085 : ℝ) ≤
        sin ((450224434815624991 / 19210689000000000 : ℝ) * π / 180) *
          sin (lam 1710936000000 * π / 180) := by nlinarith
    have hp2 : sin ((450224434815624991 / 19210689000000000 : ℝ) * π / 180) *
        sin (lam 1710936000000 * π / 180) ≤ 0.002635583 := by nlinarith
    have hsin1deg : (0.017452397 : ℝ) ≤ sin (π / 180) := by
      have hzl : (0.017453288 : ℝ) ≤ π / 180 := by linarith [Real.pi_gt_d6]
      have hzh : π / 180 ≤ 0.017453295 := by linarith [Real.pi_lt_d6]
      calc (0.017452397 : ℝ) ≤
          (0.017453288 : ℝ) - (0.017453295 : ℝ) ^ 3 / 6 -
            (0.017453295 : ℝ) ^ 4 * (5 / 96) := by norm_num
      _ ≤ sin (π / 180) := sin_ge_poly hzl hzh (by norm_num) (by norm_num)
    have hasin_lt : arcsin (sin ((450224434815624991 / 19210689000000000 : ℝ) * π / 180) *
        sin (lam 1710936000000 * π / 180)) < π / 180 := by
      rw [Real.arcsin_lt_iff_lt_sin' ⟨by linarith [Real.pi_pos], by linarith [Real.pi_pos]⟩]
      linarith
    have hasin_nonneg : 0 ≤ arcsin (sin ((450224434815624991 / 19210689000000000 : ℝ) * π / 180) *
        sin (lam 1710936000000 * π / 180)) :=
      Real.arcsin_nonneg.mpr (by linarith)
    rw [abs_lt]
    constructor
    · have : 0 ≤ arcsin (sin ((450224434815624991 / 19210689000000000 : ℝ) * π / 180) *
          sin (lam 1710936000000 * π / 180)) * 180 / π :=
        div_nonneg (by nlinarith) Real.pi_pos.le
      linarith
    · rw [div_lt_one Real.pi_pos]
      linarith
  · obtain ⟨h1, h2⟩ := c8_lam
    rw [c8_lon, abs_lt]
    constructor <;> linarith

/-! ### Numeric evaluation at 12:00 UTC of a day about 22,000 years before
J2000 (Unix milliseconds -693353908800000, a representable JavaScript Date),
where the obliquity polynomial reaches about 26.29°: refutes the constant
23.44° latitude bound of claim C1 and the normalized-longitude claim C2 -/

theorem c1_T : T (-693353908800000) = -2678629 / 12175 := by
  unfold T JD
  norm_num

theorem c1_hours : getUTCHours (-693353908800000) = 12 := by decide

theorem c1_L0 : L0 (-693353908800000) = -329140981257 / 1217500000 := by
  unfold L0
  rw [c1_T, show (280.46646 : ℝ) + 36000.76983 * (-2678629 / 12175) =
    -9642929140981257 / 1217500000 by norm_num,
    jsMod_eq_of_nonpos (-22000) (by norm_num) (by norm_num) (by push_cast; norm_num)
      (by push_cast; norm_num)]
  push_cast
  norm_num

theorem c1_C : -1.9348 ≤ C (-693353908800000) ∧ C (-693353908800000) ≤ 1.9348 := by
  unfold C
  constructor <;>
    nlinarith [Real.neg_one_le_sin (M (-693353908800000) * π / 180),
      Real.sin_le_one (M (-693353908800000) * π / 180),
      Real.neg_one_le_sin (2 * M (-693353908800000) * π / 180),
      Real.sin_le_one (2 * M (-693353908800000) * π / 180)]

theorem c1_lam : (-272.2765 : ℝ) ≤ lam (-693353908800000) ∧
    lam (-693353908800000) ≤ -268.4068 := by
  obtain ⟨h1, h2⟩ := c1_C
  unfold lam
  rw [c1_L0,
    jsMod_eq_of_nonpos 0 (by norm_num) (by norm_num) (by push_cast; linarith)
      (by push_cast; linarith)]
  push_cast
  constructor <;> linarith

theorem c1_eps : ε (-693353908800000) = 1403042669592461431 / 53363025000000000 := by
  unfold ε
  rw [c1_T]
  norm_num

theorem c1_sineps :
    (0.440474077 : ℝ) ≤ sin ((1403042669592461431 / 53363025000000000 : ℝ) * π / 180) := by
  have hzl : (0.458889072 : ℝ) ≤
      (1403042669592461431 / 53363025000000000 : ℝ) * π / 180 := by
    nlinarith [Real.pi_gt_d6]
  have hzh : (1403042669592461431 / 53363025000000000 : ℝ) * π / 180 ≤ 0.458889219 := by
    nlinarith [Real.pi_lt_d6]
  calc (0.440474077 : ℝ) ≤
      (0.458889072 : ℝ) - (0.458889219 : ℝ) ^ 3 / 6 -
        (0.458889219 : ℝ) ^ 4 * (5 / 96) := by norm_num
  _ ≤ sin ((1403042669592461431 / 53363025000000000 : ℝ) * π / 180) :=
      sin_ge_poly hzl hzh (by norm_num) (by norm_num)

theorem c1_sinlam : (0.99921 : ℝ) ≤ sin (lam (-693353908800000) * π / 180) := by
  obtain ⟨h1, h2⟩ := c1_lam
  have e : sin (lam (-693353908800000) * π / 180) =
      cos ((lam (-693353908800000) + 270) * π / 180) := by
    rw [← Real.sin_add_two_pi (lam (-693353908800000) * π / 180),
      ← Real.cos_pi_div_two_sub (lam (-693353908800000) * π / 180 + 2 * π),
      show π / 2 - (lam (-693353908800000) * π / 180 + 2 * π) =
        -((lam (-693353908800000) + 270) * π / 180) by ring, Real.cos_neg]
  rw [e]
  have habs : |(lam (-693353908800000) + 270) * π / 180| ≤ 0.0397325 := by
    rw [abs_le]
    constructor
    · nlinarith [Real.pi_gt_d6, Real.pi_lt_d6,
        mul_nonneg (by linarith : (0 : ℝ) ≤ lam (-693353908800000) + 272.2765)
          (by linarith [Real.pi_gt_d6] : (0 : ℝ) ≤ π - 3.141592)]
    · nlinarith [Real.pi_gt_d6, Real.pi_lt_d6,
        mul_nonneg (by linarith : (0 : ℝ) ≤ -268.4068 - lam (-693353908800000))
          (by linarith [Real.pi_gt_d6] : (0 : ℝ) ≤ π - 3.141592)]
  calc (0.99921 : ℝ) ≤
      1 - (0.0397325 : ℝ) ^ 2 / 2 - (0.0397325 : ℝ) ^ 4 * (5 / 96) := by norm_num
  _ ≤ cos ((lam (-693353908800000) + 270) * π / 180) :=
      cos_ge_poly habs (by norm_num)

/-- C1 counterexample: at the valid timestamp -693353908800000 ms (12:00 UTC,
about 22,000 years before J2000) the computed subsolar latitude exceeds 23.44°,
so it does not lie in the interval [-23.44°, 23.44°]. -/
theorem subsolarLat_exceeds_constant_bound : 23.44 < subsolarLat (-693353908800000) := by
  have hse := c1_sineps
  have hsl := c1_sinlam
  unfold subsolarLat
  rw [c1_eps]
  have hp : (0.44 : ℝ) ≤
      sin ((1403042669592461431 / 53363025000000000 : ℝ) * π / 180) *
        sin (lam (-693353908800000) * π / 180) := by
    nlinarith [Real.sin_le_one (lam (-693353908800000) * π / 180)]
  have hasin : 23.44 * π / 180 <
      arcsin (sin ((1403042669592461431 / 53363025000000000 : ℝ) * π / 180) *
        sin (lam (-693353908800000) * π / 180)) := by
    rw [Real.lt_arcsin_iff_sin_lt' ⟨by linarith [Real.pi_pos], by linarith [Real.pi_pos]⟩]
    have hlt : sin (23.44 * π / 180) < 23.44 * π / 180 :=
      Real.sin_lt (by positivity)
    have : (23.44 : ℝ) * π / 180 ≤ 0.409105222 := by linarith [Real.pi_lt_d6]
    linarith
  rw [lt_div_iff Real.pi_pos]
  linarith

/-- C1 amended: for every timestamp from the J2000 epoch (2000-01-01T12:00:00Z,
Unix milliseconds 946728000000) up to Julian-century offset `T ≤ 3000` (beyond
the largest representable JavaScript Date), the subsolar latitude lies in
[-23.44°, 23.44°]; in general it is only bounded by the instantaneous
obliquity, which exceeds 23.44° for timestamps before mid-1994. -/
theorem subsolarLat_obliquity_bound (ms : ℤ) (hlo : 946728000000 ≤ ms)
    (hhi : ms ≤ 9468226728000000) :
    -23.44 ≤ subsolarLat ms ∧ subsolarLat ms ≤ 23.44 := by
  have hmsr_lo : (946728000000 : ℝ) ≤ (ms : ℝ) := by exact_mod_cast hlo
  have hmsr_hi : (ms : ℝ) ≤ 9468226728000000 := by exact_mod_cast hhi
  have hpi := Real.pi_pos
  have hT_lo : 0 ≤ T ms := by
    unfold T JD
    have h1 : (10957.5 : ℝ) ≤ (ms : ℝ) / 86400000 := by
      rw [le_div_iff (by norm_num : (0 : ℝ) < 86400000)]
      linarith
    have h2 : (0 : ℝ) ≤ (ms : ℝ) / 86400000 + 2440587.5 - 2451545.0 := by linarith
    exact div_nonneg h2 (by norm_num)
  have hT_hi : T ms ≤ 3000 := by
    unfold T JD
    rw [div_le_iff (by norm_num : (0 : ℝ) < 36525)]
    have h1 : (ms : ℝ) / 86400000 ≤ 109585957.5 := by
      rw [div_le_iff (by norm_num : (0 : ℝ) < 86400000)]
      linarith
    linarith
  have heps_hi : ε ms ≤ 23.43929111 := by
    unfold ε
    nlinarith [sq_nonneg (T ms)]
  have heps_lo : -23.44 ≤ ε ms := by
    unfold ε
    nlinarith [mul_nonneg hT_lo (by linarith : (0 : ℝ) ≤ 3000 - T ms)]
  have habs : |ε ms * π / 180| ≤ 23.44 * π / 180 := by
    rw [abs_le]
    constructor
    · nlinarith [mul_nonneg (by linarith : (0 : ℝ) ≤ ε ms + 23.44) hpi.le]
    · nlinarith [mul_nonneg (by linarith : (0 : ℝ) ≤ 23.44 - ε ms) hpi.le]
  have hc_le : 23.44 * π / 180 ≤ π / 2 := by linarith
  have hc_ge : -(π / 2) ≤ -(23.44 * π / 180) := by linarith
  have hsin_abs : |sin (ε ms * π / 180)| ≤ sin (23.44 * π / 180) := by
    rw [abs_le]
    obtain ⟨ha1, ha2⟩ := abs_le.mp habs
    constructor
    · have h := Real.sin_le_sin_of_le_of_le_pi_div_two
        (x := -(23.44 * π / 180)) (y := ε ms * π / 180) hc_ge
        (by linarith) ha1
      rw [Real.sin_neg] at h
      linarith
    · exact Real.sin_le_sin_of_le_of_le_pi_div_two (by linarith) hc_le ha2
  have hprod_abs : |sin (ε ms * π / 180) * sin (lam ms * π / 180)| ≤
      sin (23.44 * π / 180) := by
    rw [abs_mul]
    have h2 : |sin (lam ms * π / 180)| ≤ 1 :=
      abs_le.mpr ⟨Real.neg_one_le_sin _, Real.sin_le_one _⟩
    calc |sin (ε ms * π / 180)| * |sin (lam ms * π / 180)| ≤
        |sin (ε ms * π / 180)| :=
        mul_le_of_le_one_right (abs_nonneg _) h2
    _ ≤ sin (23.44 * π / 180) := hsin_abs
  obtain ⟨hp1, hp2⟩ := abs_le.mp hprod_abs
  have harc_le : arcsin (sin (ε ms * π / 180) * sin (lam ms * π / 180)) ≤
      23.44 * π / 180 := by
    calc arcsin (sin (ε ms * π / 180) * sin (lam ms * π / 180)) ≤
        arcsin (sin (23.44 * π / 180)) := Real.monotone_arcsin hp2
    _ = 23.44 * π / 180 := Real.arcsin_sin (by linarith) hc_le
  have harc_ge : -(23.44 * π / 180) ≤
      arcsin (sin (ε ms * π / 180) * sin (lam ms * π / 180)) := by
    calc -(23.44 * π / 180) =
        arcsin (sin (-(23.44 * π / 180))) :=
        (Real.arcsin_sin hc_ge (by linarith)).symm
    _ ≤ arcsin (sin (ε ms * π / 180) * sin (lam ms * π / 180)) := by
        apply Real.monotone_arcsin
        rw [Real.sin_neg]
        linarith
  unfold subsolarLat
  constructor
  · rw [le_div_iff hpi]
    linarith
  · rw [div_le_iff hpi]
    linarith

theorem subsolarLat_obliquity_bound_w :
    ((946728000000 : ℤ) ≤ 946728000000 ∧ (946728000000 : ℤ) ≤ 9468226728000000) ∧
    (-23.44 ≤ subsolarLat 946728000000 ∧ subsolarLat 946728000000 ≤ 23.44) :=
  ⟨⟨by norm_num, by norm_num⟩,
    subsolarLat_obliquity_bound 946728000000 (by norm_num) (by norm_num)⟩

theorem c1_lon : subsolarLon (-693353908800000) = lam (-693353908800000) := by
  obtain ⟨h1, h2⟩ := c1_lam
  unfold subsolarLon
  rw [c1_hours, show (((12 * 15 : ℤ)) : ℝ) = 180 by norm_num,
    jsMod_eq_of_nonpos 0 (by norm_num) (by norm_num) (by push_cast; linarith)
      (by push_cast; linarith)]
  push_cast
  ring

/-- C2 counterexample: at the valid timestamp -693353908800000 ms the computed
subsolar longitude is below -180°, hence neither in (-180°, 180°] nor in
[0°, 360°) — it lies in no single normalized longitude convention, and in
particular not in the convention of the station coordinates (which use
(-180°, 180°]). -/
theorem subsolarLon_outside_conventions :
    subsolarLon (-693353908800000) < -180 := by
  obtain ⟨h1, h2⟩ := c1_lam
  rw [c1_lon]
  linarith

/-- C2 amended: the subsolar longitude is only guaranteed to lie in the raw
JavaScript remainder range (-360°, 360°); it is not normalized into a single
longitude convention. -/
theorem subsolarLon_range (ms : ℤ) :
    -360 < subsolarLon ms ∧ subsolarLon ms < 360 := by
  unfold subsolarLon
  exact jsMod_bounds _ (by norm_num)

end EarthVisualizer
